import Mathlib

/-!
Verification of the HTTP-triggered ETL microservice (`src/main.py`).

The whole program is one handler, `gcs_trigger_process`, which receives a
storage-object-created notification, filters it by path and extension,
reads a CSV from storage, checks whether the destination warehouse table
exists, and submits a load job whose write mode depends on that check.

We embed the handler as a pure function.  All interactions with the outside
world (the CSV read, the two `get_table` calls, the load job) are supplied
up front as an `Env` value describing what each external call would return;
the handler also produces a `Trace` recording which external calls it
actually performed, so that "performs zero warehouse or storage calls" is a
provable statement.
-/

namespace ETL

/-- Result of `bq_client.get_table(table_ref)`: the table is found (its
    metadata carrying `num_rows`), the client raises `NotFound`, or it
    raises some other exception. -/
inductive GetTableResult where
  | found (numRows : Nat)
  | notFound
  | otherError (msg : String)
deriving DecidableEq, Repr

/-- Whether a `get_table` call succeeded (no exception was raised). -/
def GetTableResult.isFound : GetTableResult → Bool
  | .found _ => true
  | _ => false

/-- Result of `pd.read_csv(uri)`: a dataframe with `rows` data rows
    (`len(df)`, which excludes the header line), or an exception. -/
inductive CsvReadResult where
  | ok (rows : Nat)
  | err (msg : String)
deriving DecidableEq, Repr

/-- Result of `bq_client.load_table_from_dataframe(...)` followed by
    `load_job.result()`: terminal success, or an exception at submission
    or while waiting. -/
inductive LoadResult where
  | ok
  | err (msg : String)
deriving DecidableEq, Repr

/-- What each external collaborator would answer during one invocation:
    the CSV read, the pre-load existence check (`src/main.py:66`), the
    load job, and the post-load verification fetch (`src/main.py:93`). -/
structure Env where
  readCsv : CsvReadResult
  getTableCheck : GetTableResult
  loadJobId : String
  loadResult : LoadResult
  getTableVerify : GetTableResult
deriving DecidableEq, Repr

/-- The three environment variables read at module load
    (`BQ_PROJECT_ID`, `BQ_DATASET_ID`, `BQ_TABLE_ID`, `src/main.py:9-11`);
    `os.environ.get` yields `None` when a variable is unset. -/
structure Config where
  bqProjectId : Option String
  bqDatasetId : Option String
  bqTableId : Option String
deriving DecidableEq, Repr

/-- The event payload's `bucket` and `name` fields; `data.get(k)` yields
    `None` for a missing key. -/
structure EventData where
  bucket : Option String
  name : Option String
deriving DecidableEq, Repr

/-- A JSON scalar, as produced by `jsonify`. -/
inductive JVal where
  | s (v : String)
  | n (v : Nat)
  | b (v : Bool)
deriving DecidableEq, Repr

/-- `bigquery.WriteDisposition`: `WRITE_APPEND` or `WRITE_TRUNCATE`. -/
inductive WriteDisposition where
  | append
  | truncate
deriving DecidableEq, Repr

/-- What the handler hands back to the functions framework: a plain
    `(text, code)` pair, a `(jsonify(dict), code)` pair (the dict kept as
    an ordered association list), or a re-raised exception
    (`src/main.py:112`). -/
inductive Response where
  | text (body : String) (code : Nat)
  | json (body : List (String × JVal)) (code : Nat)
  | raised (msg : String)
deriving DecidableEq, Repr

/-- Whether the handler terminated by (re-)raising an exception. -/
def Response.isRaised : Response → Bool
  | .raised _ => true
  | _ => false

/-- Count of external calls the handler actually performed, and the write
    disposition of the load job if one was submitted. -/
structure Trace where
  storageReads : Nat
  warehouseQueries : Nat
  loadSubmissions : Nat
  submittedMode : Option WriteDisposition
deriving DecidableEq, Repr

/-- The trace of an invocation that touched no external collaborator. -/
def Trace.empty : Trace := ⟨0, 0, 0, none⟩

/-- The trace witnessed zero external calls of any kind. -/
def Trace.noCalls (t : Trace) : Prop :=
  t.storageReads = 0 ∧ t.warehouseQueries = 0 ∧ t.loadSubmissions = 0

/-- Python truthiness of an optional string: `not x` is true when `x` is
    `None` or the empty string. -/
def pyFalsy : Option String → Bool
  | none => true
  | some s => s.isEmpty

/-- Python `s.startswith(pre)`. -/
def pyStartsWith (s pre : String) : Bool := pre.data.isPrefixOf s.data

/-- Python `s.endswith(suf)`. -/
def pyEndsWith (s suf : String) : Bool := suf.data.isSuffixOf s.data

/-- Python `s.lower()` (modelled at the ASCII level, which covers every
    literal the program compares against). -/
def pyLower (s : String) : String := ⟨s.data.map Char.toLower⟩

/-- The check `if not (BQ_PROJECT_ID and BQ_DATASET_ID and BQ_TABLE_ID)`
    at `src/main.py:48`, with truthiness as in Python. -/
def envVarsOk (cfg : Config) : Bool :=
  !(pyFalsy cfg.bqProjectId) && !(pyFalsy cfg.bqDatasetId) && !(pyFalsy cfg.bqTableId)

/-- `table_ref = f"{BQ_PROJECT_ID}.{BQ_DATASET_ID}.{BQ_TABLE_ID}"`
    (`src/main.py:52`); in the program this line only runs once all three
    variables are non-empty strings. -/
def tableRef (cfg : Config) : String :=
  cfg.bqProjectId.getD "" ++ "." ++ cfg.bqDatasetId.getD "" ++ "." ++ cfg.bqTableId.getD ""

/-- The part of the handler from `pd.read_csv` on (`src/main.py:59-103`),
    reached only after validation, filtering and the env-var check. -/
def ingestPhase (cfg : Config) (env : Env) (fileName : String) : Response × Trace :=
  match env.readCsv with
  | .err m => (.raised m, ⟨1, 0, 0, none⟩)
  | .ok rows =>
    -- `table_exists = True` then
    -- `try: get_table(...) except NotFound: table_exists = False`
    match env.getTableCheck with
    | .otherError m => (.raised m, ⟨1, 1, 0, none⟩)
    | g =>
      let table_exists : Bool := g.isFound
      let mode : WriteDisposition := if table_exists then .append else .truncate
      match env.loadResult with
      | .err m => (.raised m, ⟨1, 1, 1, some mode⟩)
      | .ok =>
        -- `dest_table = bq_client.get_table(table_ref)`: its `num_rows` is
        -- only printed; a NotFound here is NOT caught and propagates
        match env.getTableVerify with
        | .found _ =>
          (.json [("status", .s "success"),
                  ("file", .s fileName),
                  ("rows_loaded", .n rows),
                  ("bq_table", .s (tableRef cfg)),
                  ("table_created_now", .b (!table_exists)),
                  ("job_id", .s env.loadJobId)] 200,
           ⟨1, 2, 1, some mode⟩)
        | .notFound => (.raised "NotFound", ⟨1, 2, 1, some mode⟩)
        | .otherError m => (.raised m, ⟨1, 2, 1, some mode⟩)

/-- The handler `gcs_trigger_process` (`src/main.py:16-112`).
    `cloudEventData` is `cloud_event.data`, which may be absent (`None`). -/
def gcs_trigger_process (cfg : Config) (env : Env) (cloudEventData : Option EventData) :
    Response × Trace :=
  -- `data = cloud_event.data or {}`
  let data := cloudEventData.getD ⟨none, none⟩
  let bucket := data.bucket
  let name := data.name
  -- `if not bucket or not name`
  if pyFalsy bucket || pyFalsy name then
    (.text "Bad event payload: missing bucket or name" 400, Trace.empty)
  else
    let n := name.getD ""
    -- `if not name.startswith("raw_data/")`
    if !(pyStartsWith n "raw_data/") then
      (.text "" 204, Trace.empty)
    -- `if not name.lower().endswith(".csv")`
    else if !(pyEndsWith (pyLower n) ".csv") then
      (.text "" 204, Trace.empty)
    -- env var check
    else if !(envVarsOk cfg) then
      (.text "Missing env vars: BQ_PROJECT_ID, BQ_DATASET_ID, BQ_TABLE_ID" 500, Trace.empty)
    else
      ingestPhase cfg env n

/-- The downstream collaborators fail somewhere: the CSV read errors, the
    existence check errors for a reason other than not-found, the load job
    fails, or the post-load verification fetch fails. -/
def envFails (env : Env) : Prop :=
  (∃ m, env.readCsv = .err m) ∨ (∃ m, env.getTableCheck = .otherError m) ∨
  (∃ m, env.loadResult = .err m) ∨ env.getTableVerify.isFound = false

/-- A fully-populated configuration, for concrete evaluations. -/
def cfgEx : Config := ⟨some "proj", some "dset", some "tbl"⟩

/-- An all-success environment in which the table already exists with 100
    rows before the load and 105 after it. -/
def envOkFound : Env := ⟨.ok 5, .found 100, "job1", .ok, .found 105⟩

/-- An all-success environment in which the table does not yet exist. -/
def envOkNotFound : Env := ⟨.ok 5, .notFound, "job1", .ok, .found 5⟩

/-- An environment whose load job fails. -/
def envLoadErr : Env := ⟨.ok 5, .found 100, "job1", .err "quota exceeded", .found 100⟩

/-- The JSON body produced for `envOkFound` on `raw_data/x.csv`. -/
def bodyExFound : List (String × JVal) :=
  [("status", .s "success"), ("file", .s "raw_data/x.csv"), ("rows_loaded", .n 5),
   ("bq_table", .s "proj.dset.tbl"), ("table_created_now", .b false), ("job_id", .s "job1")]

/-- The JSON body produced for `envOkNotFound` on `raw_data/x.csv`. -/
def bodyExNotFound : List (String × JVal) :=
  [("status", .s "success"), ("file", .s "raw_data/x.csv"), ("rows_loaded", .n 5),
   ("bq_table", .s "proj.dset.tbl"), ("table_created_now", .b true), ("job_id", .s "job1")]

theorem pyFalsy_some (s : String) (h : s ≠ "") : pyFalsy (some s) = false := by
  simp only [pyFalsy]
  rw [Bool.eq_false_iff]
  intro hh
  exact h ((String.isEmpty_iff s).mp hh)

theorem handler_split (cfg : Config) (env : Env) (d : Option EventData) :
    ((gcs_trigger_process cfg env d).2 = Trace.empty ∧
      ∃ b c, (gcs_trigger_process cfg env d).1 = .text b c) ∨
    ∃ n, gcs_trigger_process cfg env d = ingestPhase cfg env n := by
  simp only [gcs_trigger_process]
  split
  · exact Or.inl ⟨rfl, _, _, rfl⟩
  · split
    · exact Or.inl ⟨rfl, _, _, rfl⟩
    · split
      · exact Or.inl ⟨rfl, _, _, rfl⟩
      · split
        · exact Or.inl ⟨rfl, _, _, rfl⟩
        · exact Or.inr ⟨_, rfl⟩

theorem ingest_mode (cfg : Config) (env : Env) (f : String) (m : WriteDisposition)
    (h : (ingestPhase cfg env f).2.submittedMode = some m) :
    m = (if env.getTableCheck.isFound then .append else .truncate) := by
  rcases env with ⟨rc, gtc, jid, lr, gtv⟩
  cases rc <;> cases gtc <;> cases lr <;> cases gtv <;>
    simp_all [ingestPhase, GetTableResult.isFound]

theorem ingest_json (cfg : Config) (env : Env) (f : String)
    (body : List (String × JVal)) (code : Nat)
    (h : (ingestPhase cfg env f).1 = .json body code) :
    code = 200 ∧ ∃ rows, env.readCsv = .ok rows ∧
      body = [("status", .s "success"), ("file", .s f), ("rows_loaded", .n rows),
              ("bq_table", .s (tableRef cfg)),
              ("table_created_now", .b (!env.getTableCheck.isFound)),
              ("job_id", .s env.loadJobId)] := by
  rcases env with ⟨rc, gtc, jid, lr, gtv⟩
  cases rc <;> cases gtc <;> cases lr <;> cases gtv <;>
    simp_all [ingestPhase, GetTableResult.isFound]

theorem handler_ingest (cfg : Config) (env : Env) (b n : String)
    (hb : b ≠ "") (hn : n ≠ "")
    (hp : pyStartsWith n "raw_data/" = true) (he : pyEndsWith (pyLower n) ".csv" = true)
    (hc : envVarsOk cfg = true) :
    gcs_trigger_process cfg env (some ⟨some b, some n⟩) = ingestPhase cfg env n := by
  simp [gcs_trigger_process, pyFalsy_some b hb, pyFalsy_some n hn, hp, he, hc]

/-- Claim C1: whenever a load job is submitted, its write mode is a pure
    function of the immediately preceding existence-check result — append
    if the table was found, create/replace (truncate) if it was not; no
    other part of the configuration, event or environment influences the
    choice. -/
theorem c1_write_mode (cfg : Config) (env : Env) (d : Option EventData)
    (m : WriteDisposition)
    (h : (gcs_trigger_process cfg env d).2.submittedMode = some m) :
    m = (if env.getTableCheck.isFound then .append else .truncate) := by
  rcases handler_split cfg env d with ⟨ht, _⟩ | ⟨n, he⟩
  · rw [ht] at h; simp [Trace.empty] at h
  · rw [he] at h; exact ingest_mode cfg env n m h

theorem c1_witness :
    (gcs_trigger_process cfgEx envOkNotFound
        (some ⟨some "bkt", some "raw_data/x.csv"⟩)).2.submittedMode =
      some WriteDisposition.truncate ∧
    WriteDisposition.truncate =
      (if envOkNotFound.getTableCheck.isFound then .append else .truncate) :=
  ⟨by decide, c1_write_mode cfgEx envOkNotFound (some ⟨some "bkt", some "raw_data/x.csv"⟩)
      WriteDisposition.truncate (by decide)⟩

/-- Claim C2: every success response has status code 200 and a JSON body
    with exactly the keys status, file, rows_loaded, bq_table,
    table_created_now, job_id; rows_loaded is the row count of the parsed
    CSV payload (independent of the destination table's post-load count,
    which the environment carries separately), and table_created_now is
    the negation of the existence-check result. -/
theorem c2_success_shape (cfg : Config) (env : Env) (d : Option EventData)
    (body : List (String × JVal)) (code : Nat) (rows : Nat)
    (h : (gcs_trigger_process cfg env d).1 = .json body code)
    (hr : env.readCsv = .ok rows) :
    code = 200 ∧
    body.map Prod.fst =
      ["status", "file", "rows_loaded", "bq_table", "table_created_now", "job_id"] ∧
    body.lookup "rows_loaded" = some (.n rows) ∧
    body.lookup "table_created_now" = some (.b (!env.getTableCheck.isFound)) := by
  rcases handler_split cfg env d with ⟨_, b', c', ht⟩ | ⟨n, he⟩
  · rw [ht] at h; cases h
  · rw [he] at h
    obtain ⟨hc, rows', hr', hbody⟩ := ingest_json cfg env n body code h
    rw [hr] at hr'
    injection hr' with hrr
    subst hrr
    subst hbody
    exact ⟨hc, by simp, by simp [List.lookup], by simp [List.lookup]⟩

theorem c2_witness :
    (200 : Nat) = 200 ∧
    bodyExNotFound.map Prod.fst =
      ["status", "file", "rows_loaded", "bq_table", "table_created_now", "job_id"] ∧
    bodyExNotFound.lookup "rows_loaded" = some (.n 5) ∧
    bodyExNotFound.lookup "table_created_now" =
      some (.b (!envOkNotFound.getTableCheck.isFound)) :=
  c2_success_shape cfgEx envOkNotFound (some ⟨some "bkt", some "raw_data/x.csv"⟩)
    bodyExNotFound 200 5 (by decide) (by decide)

/-- Claim C3: the handler never returns a success outcome whose bq_table
    field differs from the join of the three configured identifiers as
    project.dataset.table. -/
theorem c3_bq_table_join (cfg : Config) (env : Env) (d : Option EventData)
    (body : List (String × JVal)) (code : Nat)
    (h : (gcs_trigger_process cfg env d).1 = .json body code) :
    body.lookup "bq_table" = some (.s (tableRef cfg)) := by
  rcases handler_split cfg env d with ⟨_, b', c', ht⟩ | ⟨n, he⟩
  · rw [ht] at h; cases h
  · rw [he] at h
    obtain ⟨_, rows, _, hbody⟩ := ingest_json cfg env n body code h
    subst hbody; simp [List.lookup]

theorem c3_witness : bodyExFound.lookup "bq_table" = some (.s (tableRef cfgEx)) :=
  c3_bq_table_join cfgEx envOkFound (some ⟨some "bkt", some "raw_data/x.csv"⟩) bodyExFound 200
    (by decide)

/-- Claim C4, counterexample: a notification whose object_name does not
    start with the designated prefix but whose bucket is empty receives
    the 400 bad-payload response, not the 204 skip response — validation
    runs before the filter. -/
theorem c4_counterexample :
    pyStartsWith "nope.txt" "raw_data/" = false ∧
    (gcs_trigger_process cfgEx envOkFound (some ⟨some "", some "nope.txt"⟩)).1 =
      Response.text "Bad event payload: missing bucket or name" 400 := by decide

/-- Claim C4 (amended): for every notification with non-empty bucket and
    object_name whose object_name does not start with the designated
    prefix, or whose extension (compared case-insensitively) is not .csv,
    the handler returns the 204 skip response and performs zero warehouse
    or storage calls. -/
theorem c4_filtered_skip (cfg : Config) (env : Env) (b n : String)
    (hb : b ≠ "") (hn : n ≠ "")
    (hf : pyStartsWith n "raw_data/" = false ∨ pyEndsWith (pyLower n) ".csv" = false) :
    (gcs_trigger_process cfg env (some ⟨some b, some n⟩)).1 = .text "" 204 ∧
    Trace.noCalls (gcs_trigger_process cfg env (some ⟨some b, some n⟩)).2 := by
  have hb' := pyFalsy_some b hb
  have hn' := pyFalsy_some n hn
  rcases hf with hf | hf
  · simp [gcs_trigger_process, hb', hn', hf, Trace.noCalls, Trace.empty]
  · cases hsw : pyStartsWith n "raw_data/" <;>
      simp [gcs_trigger_process, hb', hn', hf, hsw, Trace.noCalls, Trace.empty]

theorem c4_witness :
    (gcs_trigger_process cfgEx envOkFound (some ⟨some "bkt", some "raw_data/notes.txt"⟩)).1 =
      .text "" 204 ∧
    Trace.noCalls (gcs_trigger_process cfgEx envOkFound
      (some ⟨some "bkt", some "raw_data/notes.txt"⟩)).2 :=
  c4_filtered_skip cfgEx envOkFound "bkt" "raw_data/notes.txt" (by decide) (by decide)
    (Or.inr (by decide))

/-- Claim C5: every notification with an empty or missing bucket or
    object_name receives the 400 bad-payload response, with zero
    downstream calls of any kind. -/
theorem c5_bad_payload (cfg : Config) (env : Env) (d : Option EventData)
    (h : pyFalsy (d.getD ⟨none, none⟩).bucket = true ∨
         pyFalsy (d.getD ⟨none, none⟩).name = true) :
    (gcs_trigger_process cfg env d).1 = .text "Bad event payload: missing bucket or name" 400 ∧
    Trace.noCalls (gcs_trigger_process cfg env d).2 := by
  have hor : (pyFalsy (d.getD ⟨none, none⟩).bucket ||
      pyFalsy (d.getD ⟨none, none⟩).name) = true := by
    rcases h with h | h <;> simp [h]
  simp [gcs_trigger_process, hor, Trace.noCalls, Trace.empty]

theorem c5_witness :
    (gcs_trigger_process cfgEx envOkFound (some ⟨some "", some "raw_data/x.csv"⟩)).1 =
      .text "Bad event payload: missing bucket or name" 400 ∧
    Trace.noCalls (gcs_trigger_process cfgEx envOkFound
      (some ⟨some "", some "raw_data/x.csv"⟩)).2 :=
  c5_bad_payload cfgEx envOkFound (some ⟨some "", some "raw_data/x.csv"⟩) (Or.inl (by decide))

/-- Claim C6: for a validated, filter-passing notification, a missing
    project, dataset or table identifier yields the 500 configuration
    error with no storage or warehouse call; and because the configuration
    check runs after the filter, filtered-out objects still receive 204
    under the same missing configuration. -/
theorem c6_config_error (cfg : Config) (env : Env) (b n : String)
    (hb : b ≠ "") (hn : n ≠ "")
    (hp : pyStartsWith n "raw_data/" = true) (he : pyEndsWith (pyLower n) ".csv" = true)
    (hc : pyFalsy cfg.bqProjectId = true ∨ pyFalsy cfg.bqDatasetId = true ∨
          pyFalsy cfg.bqTableId = true) :
    ((gcs_trigger_process cfg env (some ⟨some b, some n⟩)).1 =
        .text "Missing env vars: BQ_PROJECT_ID, BQ_DATASET_ID, BQ_TABLE_ID" 500 ∧
      Trace.noCalls (gcs_trigger_process cfg env (some ⟨some b, some n⟩)).2) ∧
    (∀ n' : String, n' ≠ "" → pyStartsWith n' "raw_data/" = false →
      (gcs_trigger_process cfg env (some ⟨some b, some n'⟩)).1 = .text "" 204) := by
  have hb' := pyFalsy_some b hb
  have hn' := pyFalsy_some n hn
  have hcfg : envVarsOk cfg = false := by
    rcases hc with h | h | h <;> simp [envVarsOk, h]
  constructor
  · simp [gcs_trigger_process, hb', hn', hp, he, hcfg, Trace.noCalls, Trace.empty]
  · intro n' hne hsw
    simp [gcs_trigger_process, hb', pyFalsy_some n' hne, hsw]

theorem c6_witness :
    (gcs_trigger_process ⟨none, some "dset", some "tbl"⟩ envOkFound
        (some ⟨some "bkt", some "raw_data/x.csv"⟩)).1 =
      .text "Missing env vars: BQ_PROJECT_ID, BQ_DATASET_ID, BQ_TABLE_ID" 500 ∧
    Trace.noCalls (gcs_trigger_process ⟨none, some "dset", some "tbl"⟩ envOkFound
      (some ⟨some "bkt", some "raw_data/x.csv"⟩)).2 :=
  (c6_config_error ⟨none, some "dset", some "tbl"⟩ envOkFound "bkt" "raw_data/x.csv"
    (by decide) (by decide) (by decide) (by decide) (Or.inl (by decide))).1

/-- Claim C7: during the table-existence check, a not-found signal is the
    non-error outcome table_existed = false — the invocation proceeds to
    submit the load job (in truncate mode) — while any other failure of
    the check propagates as a raised exception with no load submitted. -/
theorem c7_notfound_handling (cfg : Config) (env : Env) (b n : String)
    (hb : b ≠ "") (hn : n ≠ "")
    (hp : pyStartsWith n "raw_data/" = true) (he : pyEndsWith (pyLower n) ".csv" = true)
    (hc : envVarsOk cfg = true) (rows : Nat) (hr : env.readCsv = .ok rows) :
    (env.getTableCheck = .notFound →
      (gcs_trigger_process cfg env (some ⟨some b, some n⟩)).2.loadSubmissions = 1 ∧
      (gcs_trigger_process cfg env (some ⟨some b, some n⟩)).2.submittedMode =
        some WriteDisposition.truncate) ∧
    (∀ msg, env.getTableCheck = .otherError msg →
      (gcs_trigger_process cfg env (some ⟨some b, some n⟩)).1 = .raised msg ∧
      (gcs_trigger_process cfg env (some ⟨some b, some n⟩)).2.loadSubmissions = 0) := by
  rw [handler_ingest cfg env b n hb hn hp he hc]
  constructor
  · intro hg
    cases hl : env.loadResult <;> cases hv : env.getTableVerify <;>
      simp [ingestPhase, GetTableResult.isFound, hr, hg, hl, hv]
  · intro msg hg
    simp [ingestPhase, hr, hg]

theorem c7_witness :
    (gcs_trigger_process cfgEx envOkNotFound
        (some ⟨some "bkt", some "raw_data/x.csv"⟩)).2.loadSubmissions = 1 ∧
    (gcs_trigger_process cfgEx envOkNotFound
        (some ⟨some "bkt", some "raw_data/x.csv"⟩)).2.submittedMode =
      some WriteDisposition.truncate :=
  (c7_notfound_handling cfgEx envOkNotFound "bkt" "raw_data/x.csv" (by decide) (by decide)
    (by decide) (by decide) (by decide) 5 (by decide)).1 (by decide)

/-- Claim C8: for a validated, filter-passing notification under complete
    configuration, every downstream failure — CSV read error, existence
    check failing other than not-found, load-job failure, or a failing
    post-load verification fetch — ends the invocation with a re-raised
    exception: no such error is converted into a normal response. -/
theorem c8_reraise (cfg : Config) (env : Env) (b n : String)
    (hb : b ≠ "") (hn : n ≠ "")
    (hp : pyStartsWith n "raw_data/" = true) (he : pyEndsWith (pyLower n) ".csv" = true)
    (hc : envVarsOk cfg = true) (hf : envFails env) :
    (gcs_trigger_process cfg env (some ⟨some b, some n⟩)).1.isRaised = true := by
  rw [handler_ingest cfg env b n hb hn hp he hc]
  rcases env with ⟨rc, gtc, jid, lr, gtv⟩
  cases rc <;> cases gtc <;> cases lr <;> cases gtv <;>
    simp_all [ingestPhase, envFails, Response.isRaised, GetTableResult.isFound]

theorem c8_witness :
    (gcs_trigger_process cfgEx envLoadErr
      (some ⟨some "bkt", some "raw_data/x.csv"⟩)).1.isRaised = true :=
  c8_reraise cfgEx envLoadErr "bkt" "raw_data/x.csv" (by decide) (by decide) (by decide)
    (by decide) (by decide) (Or.inr (Or.inr (Or.inl ⟨"quota exceeded", by decide⟩)))

/-- Claim C9: an event whose data payload is entirely absent (None) or an
    empty mapping does not make the handler fail on field access — it is
    normalised to an empty payload, falls through to the bucket/name
    validation, and receives the 400 bad-payload response with zero
    external calls. -/
theorem c9_absent_data (cfg : Config) (env : Env) :
    gcs_trigger_process cfg env none =
      (.text "Bad event payload: missing bucket or name" 400, Trace.empty) ∧
    gcs_trigger_process cfg env (some ⟨none, none⟩) =
      (.text "Bad event payload: missing bucket or name" 400, Trace.empty) :=
  ⟨rfl, rfl⟩

/-- Claim C10: the directory filter is case-sensitive while the extension
    filter is case-insensitive — an object named RAW_DATA/x.csv is skipped
    with 204 and no external call, whereas raw_data/x.CSV passes both
    filters and proceeds to the storage read. -/
theorem c10_case_sensitivity (cfg : Config) (env : Env) (b : String)
    (hb : b ≠ "") (hc : envVarsOk cfg = true) :
    ((gcs_trigger_process cfg env (some ⟨some b, some "RAW_DATA/x.csv"⟩)).1 = .text "" 204 ∧
      Trace.noCalls (gcs_trigger_process cfg env (some ⟨some b, some "RAW_DATA/x.csv"⟩)).2) ∧
    (gcs_trigger_process cfg env (some ⟨some b, some "raw_data/x.CSV"⟩)).2.storageReads = 1 := by
  constructor
  · have h0 : pyFalsy (some "RAW_DATA/x.csv") = false := by decide
    have h1 : pyStartsWith "RAW_DATA/x.csv" "raw_data/" = false := by decide
    simp [gcs_trigger_process, pyFalsy_some b hb, h0, h1, Trace.noCalls, Trace.empty]
  · rw [handler_ingest cfg env b "raw_data/x.CSV" hb (by decide) (by decide) (by decide) hc]
    rcases env with ⟨rc, gtc, jid, lr, gtv⟩
    cases rc <;> cases gtc <;> cases lr <;> cases gtv <;> simp [ingestPhase]

theorem c10_witness :
    ((gcs_trigger_process cfgEx envOkFound
        (some ⟨some "bkt", some "RAW_DATA/x.csv"⟩)).1 = .text "" 204 ∧
      Trace.noCalls (gcs_trigger_process cfgEx envOkFound
        (some ⟨some "bkt", some "RAW_DATA/x.csv"⟩)).2) ∧
    (gcs_trigger_process cfgEx envOkFound
      (some ⟨some "bkt", some "raw_data/x.CSV"⟩)).2.storageReads = 1 :=
  c10_case_sensitivity cfgEx envOkFound "bkt" (by decide) (by decide)

end ETL
